import Mathlib

/-!
Verification of the invoice total-consistency core of the stockupgo-api
repository against its specification.

The relational store is embedded shallowly: the `invoices` and
`invoice_items` tables become lists of rows, the wall clock (`NOW()`)
becomes a natural-number field of the database state, and every store
operation from `internal/data/invoice.go` and `internal/data/company.go`
(the `InvoiceItemModel` part) becomes a pure function from a database
state to a result carrying the outcome, the new state, and the number of
round trips actually sent to the backing store.

The monetary columns (`amount`, `vat`, `discount`, `quantity`, `price`)
are arbitrary-precision decimals in the store.  The modelled code only
ever adds and compares them, so they are embedded as exact integers in
the smallest decimal unit; addition of such integers is exactly the
decimal addition the SQL aggregate performs, with no rounding of any
kind.  Timestamps are natural numbers ordered by the clock.
-/

namespace StockupGo

/-- Exact decimal value measured in the smallest decimal unit. -/
abbrev Money := Int

/-- Errors surfaced by store operations.  `recordNotFound` is
`data.ErrRecordNotFound`; `noRows` is a raw `pgx.ErrNoRows` that an
operation returns without mapping it; `fkViolation` is the backing
store rejecting a write that breaks a foreign key; `atoiError` is a
`strconv.Atoi` failure; `badSortColumn` models the Go panic raised by
`Pagination.sortColumn` on an out-of-safelist sort value; `sqlError`
is any other query failure reported by the backing store. -/
inductive DBErr where
  | recordNotFound
  | noRows
  | fkViolation
  | atoiError
  | badSortColumn
  | sqlError
deriving DecidableEq

/-- One row of the `invoices` table (column set from the `Invoice`
struct and the queries in `internal/data/invoice.go`; the spec's §6
schema lists the same columns). -/
structure InvoiceRow where
  id : Int
  isActive : Bool
  date : Nat
  number : String
  organisationID : Int
  bankAccountID : Int
  companyID : Int
  agreementID : Int
  amount : Money
  discount : Money
  vat : Money
  userID : Option Int
  uuid : String
  destroyedAt : Option Nat
  createdAt : Nat
  updatedAt : Nat
deriving DecidableEq

/-- One row of the `invoice_items` table (column set from the
`InvoiceItem` struct and the queries in `internal/data/company.go`). -/
structure InvoiceItemRow where
  id : Int
  invoiceID : Int
  position : Int
  productID : Int
  description : String
  unitID : Int
  quantity : Money
  price : Money
  amount : Money
  discountRate : Int
  discount : Money
  vatRateID : Int
  vat : Money
  createdAt : Nat
  updatedAt : Nat
deriving DecidableEq

/-- The shared relational state: the two tables the core touches, the
next value of each table's id sequence, and the current clock used for
`NOW()`. -/
structure DB where
  invoices : List InvoiceRow
  invoiceItems : List InvoiceItemRow
  nextInvoiceId : Int
  nextItemId : Int
  now : Nat
deriving DecidableEq

/-- Outcome of one store operation: the Go return value, the state the
store is left in, and how many statements were actually sent to the
backing store (zero when a guard short-circuits). -/
instance {ε α : Type} [DecidableEq ε] [DecidableEq α] : DecidableEq (Except ε α) :=
  fun a b =>
    match a, b with
    | .ok x, .ok y =>
      if h : x = y then isTrue (by rw [h]) else isFalse (by intro hh; cases hh; exact h rfl)
    | .error x, .error y =>
      if h : x = y then isTrue (by rw [h]) else isFalse (by intro hh; cases hh; exact h rfl)
    | .ok _, .error _ => isFalse (by intro hh; cases hh)
    | .error _, .ok _ => isFalse (by intro hh; cases hh)

structure DBResult (α : Type) where
  res : Except DBErr α
  db : DB
  trips : Nat
deriving DecidableEq

/-- `WHERE id = $1` lookup on `invoices` (first matching row). -/
def DB.invoice? (db : DB) (id : Int) : Option InvoiceRow :=
  db.invoices.find? (fun r => r.id == id)

/-- `WHERE invoice_id = $1` restriction of `invoice_items`. -/
def DB.itemsOf (db : DB) (invoiceID : Int) : List InvoiceItemRow :=
  db.invoiceItems.filter (fun it => it.invoiceID == invoiceID)

/-- Digit-string value; fails on any non-digit character. -/
def digitsVal? (cs : List Char) : Option Nat :=
  cs.foldl
    (fun acc c => acc.bind (fun n => if c.isDigit then some (n * 10 + (c.toNat - 48)) else none))
    (some 0)

/-- `strconv.Atoi`: an optionally signed decimal integer; empty input,
a bare sign, or any non-digit character is an error.  (Overflow of the
64-bit range is not modelled; no claim depends on it.) -/
def atoi? (s : String) : Option Int :=
  match s.data with
  | [] => none
  | '+' :: cs => if cs.isEmpty then none else (digitsVal? cs).map (fun n => (n : Int))
  | '-' :: cs => if cs.isEmpty then none else (digitsVal? cs).map (fun n => -(n : Int))
  | cs => (digitsVal? cs).map (fun n => (n : Int))

/-- `ORDER BY created_at DESC LIMIT 1`: the row with the greatest
creation timestamp (on equal timestamps the row listed first wins,
matching the freedom SQL has on ties). -/
def latestByCreated : List InvoiceRow → Option InvoiceRow
  | [] => none
  | r :: rest =>
    match latestByCreated rest with
    | none => some r
    | some b => if b.createdAt > r.createdAt then some b else some r

/-- Rows of one organisation, i.e. `WHERE organisation_id = $1`. -/
def orgRows (organisationID : Int) (db : DB) : List InvoiceRow :=
  db.invoices.filter (fun r => r.organisationID == organisationID)

namespace InvoiceModel

/-- `InvoiceModel.Get` (invoice.go): keys below 1 are rejected before
any query; otherwise `WHERE id = $1`, mapping `pgx.ErrNoRows` to
`ErrRecordNotFound`.  All selected columns land in the returned
struct, including `organisation_id` and the derived totals; the query
has no `destroyed_at` predicate. -/
def Get (id : Int) (db : DB) : DBResult InvoiceRow :=
  if id < 1 then ⟨.error .recordNotFound, db, 0⟩
  else
    match db.invoice? id with
    | none => ⟨.error .recordNotFound, db, 1⟩
    | some r => ⟨.ok r, db, 1⟩

/-- `InvoiceModel.GetNumber` (invoice.go): reject organisation keys
below 1 without a query; otherwise read the most recently created
invoice of that organisation; no row means the base case "1"; a row
means `strconv.Atoi` its number (hard error on failure) and return the
successor as a decimal string. -/
def GetNumber (organisationID : Int) (db : DB) : DBResult String :=
  if organisationID < 1 then ⟨.error .recordNotFound, db, 0⟩
  else
    match latestByCreated (orgRows organisationID db) with
    | none => ⟨.ok "1", db, 1⟩
    | some r =>
      match atoi? r.number with
      | none => ⟨.error .atoiError, db, 1⟩
      | some n => ⟨.ok (toString (n + 1)), db, 1⟩

/-- `InvoiceModel.Insert` (invoice.go): when the caller supplies an
empty number, consult `GetNumber` first and use its result — a
`GetNumber` failure is swallowed and the empty number is kept.  The
INSERT persists only the seven header columns; the remaining columns
take the table defaults of the invoices migration (the `CREATE TABLE
invoices` in src/unnamed/part_006): `amount`, `discount` and `vat`
default to 0, `uuid` to a freshly generated uuid, `destroyed_at` to
NULL, `created_at` and `updated_at` to `NOW()`, and the id comes from
the `BIGSERIAL` sequence. -/
def Insert (invoice : InvoiceRow) (db : DB) : DBResult InvoiceRow :=
  let pick : String × Nat :=
    if invoice.number = "" then
      let g := GetNumber invoice.organisationID db
      match g.res with
      | .ok number => (number, g.trips)
      | .error _ => (invoice.number, g.trips)
    else (invoice.number, 0)
  let row : InvoiceRow :=
    { id := db.nextInvoiceId
      isActive := invoice.isActive
      date := invoice.date
      number := pick.1
      organisationID := invoice.organisationID
      bankAccountID := invoice.bankAccountID
      companyID := invoice.companyID
      agreementID := invoice.agreementID
      amount := 0, discount := 0, vat := 0
      userID := none
      uuid := "uuid-" ++ toString db.nextInvoiceId
      destroyedAt := none
      createdAt := db.now, updatedAt := db.now }
  ⟨.ok row,
   { db with invoices := db.invoices ++ [row], nextInvoiceId := db.nextInvoiceId + 1 },
   pick.2 + 1⟩

/-- The row produced by `InvoiceModel.Update`'s SET list: every header
column and the three derived totals are replaced from the caller's
struct and `updated_at` is set to `NOW()`; `id`, `user_id`, `uuid`,
`destroyed_at` and `created_at` are left as stored. -/
def applyInvoiceUpdate (invoice : InvoiceRow) (now : Nat) (r : InvoiceRow) : InvoiceRow :=
  { r with
    isActive := invoice.isActive, date := invoice.date, number := invoice.number
    organisationID := invoice.organisationID, bankAccountID := invoice.bankAccountID
    companyID := invoice.companyID, agreementID := invoice.agreementID
    amount := invoice.amount, discount := invoice.discount, vat := invoice.vat
    updatedAt := now }

/-- `InvoiceModel.Update` (invoice.go): a single UPDATE by primary key
with no existence pre-check; when no row matches, the RETURNING scan
yields a raw `pgx.ErrNoRows`. -/
def Update (invoice : InvoiceRow) (db : DB) : DBResult InvoiceRow :=
  if db.invoices.any (fun r => r.id == invoice.id) then
    ⟨.ok { invoice with updatedAt := db.now },
     { db with invoices :=
        (db.invoices.map
          (fun r => if r.id == invoice.id then applyInvoiceUpdate invoice db.now r else r)) },
     1⟩
  else ⟨.error .noRows, db, 1⟩

/-- `InvoiceModel.Delete` (invoice.go): keys below 1 are rejected
before any query; zero affected rows is `ErrRecordNotFound`.  The
invoice's items are removed with it because the invoice_items
migration (src/unnamed/part_006) declares
`invoice_id ... REFERENCES invoices (id) ON DELETE CASCADE`. -/
def Delete (id : Int) (db : DB) : DBResult Unit :=
  if id < 1 then ⟨.error .recordNotFound, db, 0⟩
  else if db.invoices.any (fun r => r.id == id) then
    ⟨.ok (),
     { db with
        invoices := db.invoices.filter (fun r => !(r.id == id))
        invoiceItems := db.invoiceItems.filter (fun it => !(it.invoiceID == id)) },
     1⟩
  else ⟨.error .recordNotFound, db, 1⟩

/-- `InvoiceModel.UpdateTotals` (invoice.go): keys below 1 are
rejected before any query.  First query: `COALESCE(SUM(amount), 0)`
and `COALESCE(SUM(vat), 0)` over the invoice's items (an aggregate
always yields one row, so the no-rows branch of the scan is dead).
Second query: write both sums and `updated_at = NOW()` onto the
invoice row; when the invoice does not exist the RETURNING scan's raw
`pgx.ErrNoRows` is passed through unmapped. -/
def UpdateTotals (id : Int) (db : DB) : DBResult Unit :=
  if id < 1 then ⟨.error .recordNotFound, db, 0⟩
  else
    let amount : Money := ((db.itemsOf id).map (fun it => it.amount)).sum
    let vat : Money := ((db.itemsOf id).map (fun it => it.vat)).sum
    if db.invoices.any (fun r => r.id == id) then
      ⟨.ok (),
       { db with invoices :=
          (db.invoices.map
            (fun r =>
              if r.id == id then { r with amount := amount, vat := vat, updatedAt := db.now }
              else r)) },
       2⟩
    else ⟨.error .noRows, db, 2⟩

end InvoiceModel

/-- Filter set of `InvoiceModel.GetAll` (the `InvoiceFilters` struct). -/
structure InvoiceFilters where
  organisationID : Int
  companyID : Int
  agreementID : Int
  startDate : Option Nat
  endDate : Option Nat
deriving DecidableEq

/-- Pagination parameters (data.Pagination). -/
structure Pagination where
  page : Int
  limit : Int
  sort : String
  direction : String
  sortSafelist : List String
  directionSafelist : List String
deriving DecidableEq

/-- `Pagination.sortColumn`: the sort value when it is in the
safelist; `none` models the Go panic on anything else. -/
def Pagination.sortColumn? (p : Pagination) : Option String :=
  if p.sortSafelist.contains p.sort then some p.sort else none

/-- `Pagination.sortDirection`: the direction when safelisted,
otherwise the `"ASC"` fallback. -/
def Pagination.sortDirection (p : Pagination) : String :=
  if p.directionSafelist.contains p.direction then p.direction else "ASC"

/-- `Pagination.offset`: `(page - 1) * limit`. -/
def Pagination.offsetVal (p : Pagination) : Int :=
  (p.page - 1) * p.limit

/-- The WHERE clause `InvoiceModel.GetAll` builds: each positive id
filter, the inclusive date range when both bounds are given, and —
unconditionally — `destroyed_at IS NULL`. -/
def invoiceWhere (f : InvoiceFilters) (r : InvoiceRow) : Bool :=
  (if f.organisationID > 0 then r.organisationID == f.organisationID else true) &&
  (if f.companyID > 0 then r.companyID == f.companyID else true) &&
  (if f.agreementID > 0 then r.agreementID == f.agreementID else true) &&
  (match f.startDate, f.endDate with
   | some s, some e => decide (s ≤ r.date) && decide (r.date ≤ e)
   | _, _ => true) &&
  (r.destroyedAt == none)

/-- Stable insertion used to model the SQL ORDER BY. -/
def insertLE {α : Type} (le : α → α → Bool) (x : α) : List α → List α
  | [] => [x]
  | y :: ys => if le x y then x :: y :: ys else y :: insertLE le x ys

/-- Stable sort used to model the SQL ORDER BY. -/
def sortLE {α : Type} (le : α → α → Bool) : List α → List α
  | [] => []
  | x :: xs => insertLE le x (sortLE le xs)

/-- Ascending comparison on the sortable columns the invoices
endpoint can reach (`id`, `date`, `number`, `created_at`). -/
def invoiceKeyLE (col : String) (a b : InvoiceRow) : Bool :=
  if col = "id" then a.id ≤ b.id
  else if col = "date" then a.date ≤ b.date
  else if col = "number" then a.number ≤ b.number
  else a.createdAt ≤ b.createdAt

/-- Row comparison for `ORDER BY col dir`. -/
def invoiceOrder (col : String) (dir : String) (a b : InvoiceRow) : Bool :=
  if dir = "desc" then invoiceKeyLE col b a else invoiceKeyLE col a b

/-- Columns of `invoices` this model can ORDER BY.  The handler's
safelist additionally admits `"name"`, which is not a column of the
invoices table (spec §6), so ordering by it is a query error. -/
def invoiceSortCols : List String := ["id", "date", "number", "created_at"]

namespace InvoiceModel

/-- `InvoiceModel.GetAll` (invoice.go), restricted to the invoice rows
it returns: apply the WHERE clause (which always carries
`destroyed_at IS NULL`), ORDER BY the safelisted column, then
`LIMIT $1 OFFSET $2`.  A sort value outside the safelist panics in
`Pagination.sortColumn`; a sort value that is not a column of the
table (such as `"name"`), or a negative limit or offset, is rejected
by the backing store.  The nested reference projections and the
`CountIDs` metadata are not modelled — no claim depends on them. -/
def GetAll (f : InvoiceFilters) (p : Pagination) (db : DB) : Except DBErr (List InvoiceRow) :=
  match p.sortColumn? with
  | none => .error .badSortColumn
  | some col =>
    if invoiceSortCols.contains col then
      if p.limit < 0 || p.offsetVal < 0 then .error .sqlError
      else
        .ok (((sortLE (invoiceOrder col p.sortDirection) (db.invoices.filter (invoiceWhere f))).drop
                p.offsetVal.toNat).take p.limit.toNat)
    else .error .sqlError

end InvoiceModel

namespace InvoiceItemModel

/-- The struct `InvoiceItemModel.Get`'s Scan produces: the SELECT list
is `id, position, product_id, product, description, unit_id, unit,
quantity, price, amount, discount_rate, discount, vat_rate_id,
vat_rate, created_at, updated_at` — it carries neither `invoice_id`
nor `vat`, so those two fields keep their Go zero values. -/
def scannedItem (r : InvoiceItemRow) : InvoiceItemRow :=
  { r with invoiceID := 0, vat := 0 }

/-- `InvoiceItemModel.Get` (company.go): both keys are checked before
any query; otherwise `WHERE invoice_id = $1 AND id = $2`, mapping
`pgx.ErrNoRows` to `ErrRecordNotFound`. -/
def Get (invoiceID : Int) (id : Int) (db : DB) : DBResult InvoiceItemRow :=
  if id < 1 || invoiceID < 1 then ⟨.error .recordNotFound, db, 0⟩
  else
    match db.invoiceItems.find? (fun it => it.invoiceID == invoiceID && it.id == id) with
    | none => ⟨.error .recordNotFound, db, 1⟩
    | some it => ⟨.ok (scannedItem it), db, 1⟩

/-- `InvoiceItemModel.Insert` (company.go): no key guard — the INSERT
is always sent to the store.  The invoice_items migration
(src/unnamed/part_006) declares
`invoice_id bigint REFERENCES invoices (id)`, so an INSERT whose
parent invoice does not exist is rejected by the store; the id comes
from the table's `BIGSERIAL` sequence and both timestamps default to
`NOW()`. -/
def Insert (invoiceID : Int) (item : InvoiceItemRow) (db : DB) : DBResult InvoiceItemRow :=
  if db.invoices.any (fun r => r.id == invoiceID) then
    let row : InvoiceItemRow :=
      { id := db.nextItemId, invoiceID := invoiceID, position := item.position
        productID := item.productID, description := item.description, unitID := item.unitID
        quantity := item.quantity, price := item.price, amount := item.amount
        discountRate := item.discountRate, discount := item.discount
        vatRateID := item.vatRateID, vat := item.vat
        createdAt := db.now, updatedAt := db.now }
    ⟨.ok { item with id := db.nextItemId, createdAt := db.now, updatedAt := db.now },
     { db with invoiceItems := db.invoiceItems ++ [row], nextItemId := db.nextItemId + 1 },
     1⟩
  else ⟨.error .fkViolation, db, 1⟩

/-- `InvoiceItemModel.Update` (company.go): no key guard — the UPDATE
by primary key is always sent; when no row matches, the RETURNING scan
yields a raw `pgx.ErrNoRows`.  The SET list replaces every line field
(including `vat`) and `updated_at`; `invoice_id` and `created_at` stay
as stored. -/
def Update (item : InvoiceItemRow) (db : DB) : DBResult InvoiceItemRow :=
  if db.invoiceItems.any (fun it => it.id == item.id) then
    ⟨.ok { item with updatedAt := db.now },
     { db with invoiceItems :=
        (db.invoiceItems.map (fun it =>
          if it.id == item.id then
            { it with
              position := item.position, productID := item.productID
              description := item.description, unitID := item.unitID
              quantity := item.quantity, price := item.price, amount := item.amount
              discountRate := item.discountRate, discount := item.discount
              vatRateID := item.vatRateID, vat := item.vat, updatedAt := db.now }
          else it)) },
     1⟩
  else ⟨.error .noRows, db, 1⟩

/-- `InvoiceItemModel.Delete` (company.go): keys below 1 are rejected
before any query; zero affected rows is `ErrRecordNotFound`.  The
DELETE is by bare primary key — no invoice scoping. -/
def Delete (id : Int) (db : DB) : DBResult Unit :=
  if id < 1 then ⟨.error .recordNotFound, db, 0⟩
  else if db.invoiceItems.any (fun it => it.id == id) then
    ⟨.ok (), { db with invoiceItems := db.invoiceItems.filter (fun it => !(it.id == id)) }, 1⟩
  else ⟨.error .recordNotFound, db, 1⟩

end InvoiceItemModel

/-! ### API handlers for invoice items (cmd/api, part_009)

The handlers are modelled after URL-parameter extraction and JSON
decoding have succeeded (`readIDParam` and `readJSON` live outside
src; their failures short-circuit into a 404/400 before anything in
this model runs, so no claim depends on them). -/

/-- The responses a modelled handler can produce. -/
inductive HandlerResponse where
  | notFoundResp
  | failedValidation
  | serverError
  | createdItem (item : InvoiceItemRow)
  | okItem (item : InvoiceItemRow)
  | okMessage (msg : String)
deriving DecidableEq

/-- `data.ValidateInvoiceItem`: the only live check is
`ProductID != 0` (the invoice-id check is commented out in the
source). -/
def validInvoiceItem (item : InvoiceItemRow) : Bool :=
  item.productID != 0

/-- The response struct both the create and the update handler build
before writing JSON: it copies every field except `InvoiceID` and
`Vat`, which keep their Go zero values. -/
def responseItem (it : InvoiceItemRow) : InvoiceItemRow :=
  { it with invoiceID := 0, vat := 0 }

/-- Decoded body of `POST /invoices/{invoiceID}/invoice_items`. -/
structure CreateItemInput where
  invoiceID : Int
  position : Int
  productID : Int
  description : String
  unitID : Int
  quantity : Money
  price : Money
  amount : Money
  discountRate : Int
  discount : Money
  vatRateID : Int
  vat : Money
deriving DecidableEq

/-- Decoded body of `PATCH /invoices/{invoiceID}/invoice_items/{id}`:
every field optional; note there is no invoice-id field. -/
structure UpdateItemInput where
  position : Option Int
  productID : Option Int
  description : Option String
  unitID : Option Int
  quantity : Option Money
  price : Option Money
  amount : Option Money
  discountRate : Option Int
  discount : Option Money
  vatRateID : Option Int
  vat : Option Money
deriving DecidableEq

/-- The update handler's field-by-field merge of the decoded body over
the fetched item (each `if input.X != nil` block). -/
def applyItemInput (input : UpdateItemInput) (it : InvoiceItemRow) : InvoiceItemRow :=
  { it with
    position := input.position.getD it.position
    productID := input.productID.getD it.productID
    description := input.description.getD it.description
    unitID := input.unitID.getD it.unitID
    quantity := input.quantity.getD it.quantity
    price := input.price.getD it.price
    amount := input.amount.getD it.amount
    discountRate := input.discountRate.getD it.discountRate
    discount := input.discount.getD it.discount
    vatRateID := input.vatRateID.getD it.vatRateID
    vat := input.vat.getD it.vat }

/-- `createInvoiceItemHandler` (part_009): check the invoice exists,
force the body's invoice id to the URL's, validate, insert, then call
`Invoices.UpdateTotals` on the item's invoice before answering 201. -/
def createInvoiceItemHandler (invoiceID : Int) (input : CreateItemInput) (db : DB) :
    HandlerResponse × DB :=
  match (InvoiceModel.Get invoiceID db).res with
  | .error .recordNotFound => (.notFoundResp, db)
  | .error _ => (.serverError, db)
  | .ok _ =>
    let item : InvoiceItemRow :=
      { id := 0, invoiceID := invoiceID, position := input.position
        productID := input.productID, description := input.description
        unitID := input.unitID, quantity := input.quantity, price := input.price
        amount := input.amount, discountRate := input.discountRate
        discount := input.discount, vatRateID := input.vatRateID, vat := input.vat
        createdAt := 0, updatedAt := 0 }
    if !(validInvoiceItem item) then (.failedValidation, db)
    else
      let ins := InvoiceItemModel.Insert item.invoiceID item db
      match ins.res with
      | .error _ => (.serverError, ins.db)
      | .ok item1 =>
        let tot := InvoiceModel.UpdateTotals item1.invoiceID ins.db
        match tot.res with
        | .error _ => (.serverError, tot.db)
        | .ok _ => (.createdItem (responseItem item1), tot.db)

/-- `updateInvoiceItemHandler` (part_009): check the invoice exists,
fetch the item double-scoped, merge the body, validate, update, then
call `Invoices.UpdateTotals` on `invoiceItem.InvoiceID` — a field the
fetch never populated — before answering 200. -/
def updateInvoiceItemHandler (invoiceID : Int) (id : Int) (input : UpdateItemInput) (db : DB) :
    HandlerResponse × DB :=
  match (InvoiceModel.Get invoiceID db).res with
  | .error .recordNotFound => (.notFoundResp, db)
  | .error _ => (.serverError, db)
  | .ok _ =>
    match (InvoiceItemModel.Get invoiceID id db).res with
    | .error .recordNotFound => (.notFoundResp, db)
    | .error _ => (.serverError, db)
    | .ok item0 =>
      let item := applyItemInput input item0
      if !(validInvoiceItem item) then (.failedValidation, db)
      else
        let upd := InvoiceItemModel.Update item db
        match upd.res with
        | .error _ => (.serverError, upd.db)
        | .ok item1 =>
          let tot := InvoiceModel.UpdateTotals item1.invoiceID upd.db
          match tot.res with
          | .error _ => (.serverError, tot.db)
          | .ok _ => (.okItem (responseItem item1), tot.db)

/-- `deleteInvoiceItemHandler` (part_009): no invoice-existence or
ownership check — delete the item by bare id, then call
`Invoices.UpdateTotals` on the URL's invoice id, then answer 200. -/
def deleteInvoiceItemHandler (invoiceID : Int) (id : Int) (db : DB) :
    HandlerResponse × DB :=
  let del := InvoiceItemModel.Delete id db
  match del.res with
  | .error .recordNotFound => (.notFoundResp, del.db)
  | .error _ => (.serverError, del.db)
  | .ok _ =>
    let tot := InvoiceModel.UpdateTotals invoiceID del.db
    match tot.res with
    | .error _ => (.serverError, tot.db)
    | .ok _ => (.okMessage "invoice_item successfully deleted", tot.db)

/-! ### Concrete states used to instantiate the theorems -/

/-- A template invoice row for concrete states. -/
def someInvoice : InvoiceRow :=
  { id := 1, isActive := true, date := 1, number := "1", organisationID := 1
    bankAccountID := 1, companyID := 1, agreementID := 1
    amount := 0, discount := 0, vat := 0
    userID := none, uuid := "u1", destroyedAt := none, createdAt := 3, updatedAt := 3 }

/-- A template invoice-item row for concrete states. -/
def someItem : InvoiceItemRow :=
  { id := 1, invoiceID := 1, position := 1, productID := 1, description := "widget"
    unitID := 1, quantity := 1, price := 10, amount := 10, discountRate := 0
    discount := 0, vatRateID := 1, vat := 1, createdAt := 3, updatedAt := 3 }

/-- C1 state: invoice 1 with stale totals and two items (20+5, 2+0);
invoice 2 owns a third item that must not leak into invoice 1's sums. -/
def c1db : DB :=
  { invoices := [{ someInvoice with amount := 999, vat := 999 },
                 { someInvoice with id := 2 }]
    invoiceItems := [{ someItem with id := 1, invoiceID := 1, amount := 20, vat := 2 },
                     { someItem with id := 2, invoiceID := 1, amount := 5, vat := 0 },
                     { someItem with id := 3, invoiceID := 2, amount := 100, vat := 10 }]
    nextInvoiceId := 3, nextItemId := 4, now := 7 }

/-- C2 state: invoice 1 with consistent totals (20, 2) and one item. -/
def c2db : DB :=
  { invoices := [{ someInvoice with amount := 20, vat := 2 }]
    invoiceItems := [{ someItem with amount := 20, price := 20, vat := 2 }]
    nextInvoiceId := 2, nextItemId := 2, now := 9 }

/-- C2 request body: a PATCH that only changes the line amount. -/
def c2input : UpdateItemInput :=
  { position := none, productID := none, description := none, unitID := none
    quantity := none, price := none, amount := some 30, discountRate := none
    discount := none, vatRateID := none, vat := none }

/-- C3 stored invoice: derived totals (5, 1, 2). -/
def c3stored : InvoiceRow := { someInvoice with amount := 5, discount := 1, vat := 2 }

/-- C3 state holding `c3stored`. -/
def c3db : DB :=
  { invoices := [c3stored], invoiceItems := [], nextInvoiceId := 2, nextItemId := 1, now := 10 }

/-- C3 caller struct: same header, different totals (7, 0, 0). -/
def c3input : InvoiceRow := { c3stored with amount := 7, discount := 0, vat := 0 }

/-- C4: organisation 1's most recently created invoice, numbered "7". -/
def c4latest : InvoiceRow :=
  { someInvoice with id := 2, organisationID := 1, number := "7", createdAt := 5 }

/-- C4 state: organisation 1's latest invoice is numbered "7";
organisation 2 has a newer invoice numbered "100". -/
def c4db : DB :=
  { invoices := [{ someInvoice with id := 1, organisationID := 1, number := "3", createdAt := 2 },
                 c4latest,
                 { someInvoice with id := 3, organisationID := 2, number := "100", createdAt := 9 }]
    invoiceItems := [], nextInvoiceId := 4, nextItemId := 1, now := 12 }

/-- C5 caller struct: no explicit number. -/
def c5input : InvoiceRow := { someInvoice with number := "" }

/-- C7 state: item 5 belongs to invoice 2, not invoice 1. -/
def c7db : DB :=
  { invoices := [someInvoice, { someInvoice with id := 2 }]
    invoiceItems := [{ someItem with id := 5, invoiceID := 2 }]
    nextInvoiceId := 3, nextItemId := 6, now := 4 }

/-- C8 state: an empty store. -/
def c8db : DB :=
  { invoices := [], invoiceItems := [], nextInvoiceId := 1, nextItemId := 1, now := 0 }

/-- C9 state: invoice 1 is empty and consistent; invoice 2 owns item 10
and its totals (5, 1) agree with that item. -/
def c9db : DB :=
  { invoices := [someInvoice, { someInvoice with id := 2, amount := 5, vat := 1 }]
    invoiceItems := [{ someItem with id := 10, invoiceID := 2, amount := 5, vat := 1 }]
    nextInvoiceId := 3, nextItemId := 11, now := 6 }

/-- C10 soft-deleted invoice. -/
def c10dead : InvoiceRow := { someInvoice with destroyedAt := some 5 }

/-- C10 state holding only the soft-deleted invoice. -/
def c10db : DB :=
  { invoices := [c10dead], invoiceItems := [], nextInvoiceId := 2, nextItemId := 1, now := 8 }

/-- C10 filters: none active. -/
def c10filters : InvoiceFilters :=
  { organisationID := 0, companyID := 0, agreementID := 0, startDate := none, endDate := none }

/-- C10 pagination: the invoices endpoint's defaults. -/
def c10page : Pagination :=
  { page := 1, limit := 20, sort := "id", direction := "asc"
    sortSafelist := ["id", "date", "name", "number", "created_at"]
    directionSafelist := ["asc", "desc"] }

/-- The row rewrite the recompute's UPDATE statement performs on the
invoices table. -/
def totalsRewrite (db : DB) (id : Int) (s : InvoiceRow) : InvoiceRow :=
  if s.id == id then
    { s with
      amount := ((db.itemsOf id).map (fun it => it.amount)).sum
      vat := ((db.itemsOf id).map (fun it => it.vat)).sum
      updatedAt := db.now }
  else s

/-- The row rewrite the header UPDATE statement performs on the
invoices table. -/
def headerRewrite (invoice : InvoiceRow) (now : Nat) (id : Int) (s : InvoiceRow) : InvoiceRow :=
  if s.id == id then InvoiceModel.applyInvoiceUpdate invoice now s else s

/-! ### Shared lemmas about the embedding -/

/-- `find?` commutes with a `map` whose function preserves the predicate. -/
theorem find?_map_pres {α : Type} (l : List α) (p : α → Bool) (h : α → α)
    (hp : ∀ x, p (h x) = p x) :
    (l.map h).find? p = (l.find? p).map h := by
  induction l with
  | nil => rfl
  | cons x xs ih =>
    by_cases hx : p x
    · simp [List.find?, hp, hx]
    · simp [List.find?, hp, hx, ih]

/-- `find?` locates the unique element carrying a key, provided the
predicate pins the key down and keys are pairwise distinct. -/
theorem find?_eq_of_keyNodup {α : Type} (l : List α) (key : α → Int) (p : α → Bool) (x : α)
    (hnd : (l.map key).Nodup) (hx : x ∈ l) (hpx : p x = true)
    (hkey : ∀ y, p y = true → key y = key x) :
    l.find? p = some x := by
  induction l with
  | nil => cases hx
  | cons a as ih =>
    rw [List.map_cons, List.nodup_cons] at hnd
    by_cases hpa : p a
    · rcases List.mem_cons.mp hx with rfl | hxs
      · simp [List.find?, hpa]
      · exact absurd ((hkey a hpa) ▸ (List.mem_map.mpr ⟨x, hxs, rfl⟩)) hnd.1
    · have hxa : x ≠ a := fun h => hpa (h ▸ hpx)
      have hxs : x ∈ as := by
        rcases List.mem_cons.mp hx with rfl | h
        · exact absurd rfl hxa
        · exact h
      simp [List.find?, hpa, ih hnd.2 hxs]

/-- Membership through `insertLE`. -/
theorem mem_insertLE {α : Type} (le : α → α → Bool) (x a : α) (l : List α) :
    a ∈ insertLE le x l ↔ a = x ∨ a ∈ l := by
  induction l with
  | nil => simp [insertLE]
  | cons y ys ih =>
    by_cases h : le x y
    · simp [insertLE, h]
    · simp [insertLE, h, ih]
      tauto

/-- Membership through `sortLE`. -/
theorem mem_sortLE {α : Type} (le : α → α → Bool) (a : α) (l : List α) :
    a ∈ sortLE le l ↔ a ∈ l := by
  induction l with
  | nil => simp [sortLE]
  | cons x xs ih => simp [sortLE, mem_insertLE, ih]

/-- The latest-by-creation row comes from the list. -/
theorem latestByCreated_mem : ∀ {l : List InvoiceRow} {b : InvoiceRow},
    latestByCreated l = some b → b ∈ l := by
  intro l
  induction l with
  | nil => intro b h; cases h
  | cons r rest ih =>
    intro b h
    unfold latestByCreated at h
    cases hrec : latestByCreated rest with
    | none =>
      rw [hrec] at h
      cases h
      exact List.mem_cons_self _ _
    | some c =>
      rw [hrec] at h
      change (if c.createdAt > r.createdAt then some c else some r) = some b at h
      by_cases hgt : c.createdAt > r.createdAt
      · rw [if_pos hgt] at h
        cases h
        exact List.mem_cons_of_mem _ (ih hrec)
      · rw [if_neg hgt] at h
        cases h
        exact List.mem_cons_self _ _

/-- When one row is strictly newest, `latestByCreated` returns it. -/
theorem latestByCreated_of_strict : ∀ {l : List InvoiceRow} {r : InvoiceRow},
    r ∈ l → (∀ s ∈ l, s ≠ r → s.createdAt < r.createdAt) →
    latestByCreated l = some r := by
  intro l
  induction l with
  | nil => intro r hr _; cases hr
  | cons a rest ih =>
    intro r hr hmax
    rcases List.mem_cons.mp hr with rfl | hrs
    · cases hrec : latestByCreated rest with
      | none => simp [latestByCreated, hrec]
      | some c =>
        have hc : c ∈ rest := latestByCreated_mem hrec
        have hnotgt : ¬ (c.createdAt > r.createdAt) := by
          rcases eq_or_ne c r with rfl | hne
          · omega
          · have := hmax c (List.mem_cons_of_mem _ hc) hne
            omega
        simp [latestByCreated, hrec, hnotgt]
    · have hmax2 : ∀ s ∈ rest, s ≠ r → s.createdAt < r.createdAt :=
        fun s hs => hmax s (List.mem_cons_of_mem _ hs)
      have hrec := ih hrs hmax2
      rcases eq_or_ne a r with rfl | hne
      · simp [latestByCreated, hrec]
      · have hlt := hmax a (List.mem_cons_self _ _) hne
        simp [latestByCreated, hrec, hlt]

/-- A guard-rejected recompute: keys below 1 answer `recordNotFound`. -/
theorem updateTotals_guard {id : Int} {db : DB} (h : id < 1) :
    InvoiceModel.UpdateTotals id db = ⟨.error .recordNotFound, db, 0⟩ := by
  unfold InvoiceModel.UpdateTotals
  rw [if_pos h]

/-- Any item the double-scoped fetch hands back has its (unscanned)
invoice-id field at the Go zero value. -/
theorem itemGet_ok_invoiceID {a b : Int} {db : DB} {item : InvoiceItemRow}
    (h : (InvoiceItemModel.Get a b db).res = .ok item) : item.invoiceID = 0 := by
  unfold InvoiceItemModel.Get at h
  split at h
  · exact absurd h (by simp)
  · cases hfind : db.invoiceItems.find? (fun it => it.invoiceID == a && it.id == b) with
    | none => rw [hfind] at h; exact absurd h (by simp)
    | some it0 =>
      rw [hfind] at h
      simp only [Except.ok.injEq] at h
      rw [← h]
      rfl

/-- The struct the item UPDATE hands back keeps the caller's
invoice-id field. -/
theorem itemUpdate_ok_invoiceID {item item1 : InvoiceItemRow} {db : DB}
    (h : (InvoiceItemModel.Update item db).res = .ok item1) :
    item1.invoiceID = item.invoiceID := by
  unfold InvoiceItemModel.Update at h
  split at h
  · simp only [Except.ok.injEq] at h
    rw [← h]
  · exact absurd h (by simp)

/-- The merge of a PATCH body never touches the invoice-id field. -/
theorem applyItemInput_invoiceID (input : UpdateItemInput) (it : InvoiceItemRow) :
    (applyItemInput input it).invoiceID = it.invoiceID := rfl

/-- A successful recompute rewrites exactly the matching invoice rows. -/
theorem updateTotals_step (db : DB) (id : Int)
    (hlt : ¬ id < 1) (hany : db.invoices.any (fun s => s.id == id) = true) :
    InvoiceModel.UpdateTotals id db =
      ⟨.ok (), { db with invoices := db.invoices.map (totalsRewrite db id) }, 2⟩ := by
  unfold InvoiceModel.UpdateTotals totalsRewrite
  rw [if_neg hlt]
  simp only [hany, if_true]

/-- The row rewrite of a recompute keeps every id in place. -/
theorem totalsRewrite_pres_id (db : DB) (id : Int) (s : InvoiceRow) :
    ((totalsRewrite db id s).id == id) = (s.id == id) := by
  unfold totalsRewrite
  by_cases h : s.id == id
  · simp [h]
  · simp [h]

/-- A header update rewrites exactly the matching invoice rows. -/
theorem invoiceUpdate_step (invoice : InvoiceRow) (db : DB)
    (hany : db.invoices.any (fun s => s.id == invoice.id) = true) :
    InvoiceModel.Update invoice db =
      ⟨.ok { invoice with updatedAt := db.now },
       { db with invoices := db.invoices.map (headerRewrite invoice db.now invoice.id) },
       1⟩ := by
  unfold InvoiceModel.Update headerRewrite
  simp only [hany, if_true]

/-- The row rewrite of a header update keeps every id in place. -/
theorem headerRewrite_pres_id (invoice : InvoiceRow) (now : Nat) (id : Int) (s : InvoiceRow) :
    ((headerRewrite invoice now id s).id == id) = (s.id == id) := by
  unfold headerRewrite InvoiceModel.applyInvoiceUpdate
  by_cases h : s.id == id
  · simp [h]
  · simp [h]

/-- C1: for an existing invoice with id ≥ 1, the recompute succeeds,
leaves the item table untouched, and writes onto the invoice row the
exact sums of amount and vat over all of its items together with a
fresh update timestamp; with no items both totals become 0. -/
theorem claim_C1_updateTotals_sum (db : DB) (id : Int) (r : InvoiceRow)
    (hid : 1 ≤ id) (hr : db.invoice? id = some r) :
    (InvoiceModel.UpdateTotals id db).res = .ok () ∧
    (InvoiceModel.UpdateTotals id db).db.invoiceItems = db.invoiceItems ∧
    (InvoiceModel.UpdateTotals id db).db.invoice? id =
      some { r with
        amount := (((InvoiceModel.UpdateTotals id db).db.itemsOf id).map (fun it => it.amount)).sum
        vat := (((InvoiceModel.UpdateTotals id db).db.itemsOf id).map (fun it => it.vat)).sum
        updatedAt := db.now } ∧
    ((InvoiceModel.UpdateTotals id db).db.itemsOf id = [] →
      (InvoiceModel.UpdateTotals id db).db.invoice? id =
        some { r with amount := 0, vat := 0, updatedAt := db.now }) := by
  have hlt : ¬ id < 1 := by omega
  have hr2 : db.invoices.find? (fun s => s.id == id) = some r := hr
  have hmem := List.mem_of_find?_eq_some hr2
  have hpid0 := List.find?_some hr2
  have hpid : (r.id == id) = true := hpid0
  have hany : db.invoices.any (fun s => s.id == id) = true :=
    List.any_eq_true.mpr ⟨r, hmem, hpid⟩
  have hstep := updateTotals_step db id hlt hany
  have hitems : (InvoiceModel.UpdateTotals id db).db.invoiceItems = db.invoiceItems := by
    rw [hstep]
  have hsums : (InvoiceModel.UpdateTotals id db).db.itemsOf id = db.itemsOf id := by
    rw [hstep]; rfl
  have hlook : (InvoiceModel.UpdateTotals id db).db.invoice? id =
      some { r with
        amount := ((db.itemsOf id).map (fun it => it.amount)).sum
        vat := ((db.itemsOf id).map (fun it => it.vat)).sum
        updatedAt := db.now } := by
    rw [hstep]
    unfold DB.invoice?
    rw [find?_map_pres _ _ _ (fun s => totalsRewrite_pres_id db id s)]
    rw [hr2]
    have hpideq : r.id = id := by simpa using hpid
    simp [totalsRewrite, hpideq]
  refine ⟨by rw [hstep], hitems, ?_, ?_⟩
  · rw [hsums]
    exact hlook
  · intro hempty
    rw [hsums] at hempty
    rw [hlook, hempty]
    simp

/-- C1 witness: recomputing invoice 1 of `c1db` (items 20+5 and 2+0)
stores amount 25 and vat 2 at clock 7. -/
theorem claim_C1_witness :
    1 ≤ (1:Int) ∧ c1db.invoice? 1 = some { someInvoice with amount := 999, vat := 999 } ∧
    (InvoiceModel.UpdateTotals 1 c1db).db.invoice? 1 =
      some { someInvoice with amount := 25, vat := 2, updatedAt := 7 } := by
  refine ⟨by decide, by decide, ?_⟩
  have h := (claim_C1_updateTotals_sum c1db 1 { someInvoice with amount := 999, vat := 999 }
    (by decide) (by decide)).2.2.1
  exact h.trans (by decide)

/-- C2: the contract fails in the items-PATCH handler.  The item that
`InvoiceItemModel.Get` hands back carries invoice-id 0 (the column is
never scanned), so after the item UPDATE commits, the handler
recomputes invoice 0, which always fails — the handler can never
reach its 200 response.  Concretely on `c2db`: the PATCH commits the
item mutation (amount 30; vat zeroed through the unscanned field),
answers a server error, and leaves invoice 1 with the stale totals
(20, 2). -/
theorem claim_C2_totals_reconciler :
    (∀ (invoiceID id : Int) (input : UpdateItemInput) (db : DB) (it : InvoiceItemRow),
        (updateInvoiceItemHandler invoiceID id input db).1 ≠ .okItem it) ∧
    (updateInvoiceItemHandler 1 1 c2input c2db).1 = .serverError ∧
    ((updateInvoiceItemHandler 1 1 c2input c2db).2.invoiceItems.map
        (fun it => (it.id, it.amount, it.vat))) = [(1, 30, 0)] ∧
    ((updateInvoiceItemHandler 1 1 c2input c2db).2.invoice? 1).map (fun r => (r.amount, r.vat))
        = some (20, 2) := by
  refine ⟨?_, by decide, by decide, by decide⟩
  intro invoiceID id input db it
  unfold updateInvoiceItemHandler
  cases hga : (InvoiceModel.Get invoiceID db).res with
  | error e => cases e <;> simp
  | ok inv =>
    cases hgi : (InvoiceItemModel.Get invoiceID id db).res with
    | error e => cases e <;> simp
    | ok item0 =>
      have h0 : item0.invoiceID = 0 := itemGet_ok_invoiceID hgi
      by_cases hv : validInvoiceItem (applyItemInput input item0)
      · cases hup : (InvoiceItemModel.Update (applyItemInput input item0) db).res with
        | error e => simp [hv, hup]
        | ok item1 =>
          have h1 : item1.invoiceID = 0 :=
            (itemUpdate_ok_invoiceID hup).trans ((applyItemInput_invoiceID input item0).trans h0)
          have hguard :=
            @updateTotals_guard 0 (InvoiceItemModel.Update (applyItemInput input item0) db).db
              (by omega)
          simp [hv, hup, h1, hguard]
      · simp [hv]

/-- C3 counterexample: `InvoiceModel.Update` does not leave the stored
derived totals unchanged — updating invoice 1 of `c3db` with a struct
carrying totals (7, 0, 0) overwrites the stored (5, 1, 2). -/
theorem claim_C3_counterexample :
    (c3db.invoice? 1).map (fun r => (r.amount, r.discount, r.vat)) = some (5, 1, 2) ∧
    (InvoiceModel.Update c3input c3db).res = .ok { c3input with updatedAt := 10 } ∧
    ((InvoiceModel.Update c3input c3db).db.invoice? 1).map
        (fun r => (r.amount, r.discount, r.vat)) = some (7, 0, 0) := by
  refine ⟨by decide, by decide, by decide⟩

/-- C3 (amended): `InvoiceModel.Update` replaces, by primary key, the
header fields AND the three derived totals fields from the caller's
struct, and touches the update timestamp; only id, user, uuid,
soft-delete marker and creation timestamp of the stored row are kept.
The stored totals therefore survive only when the caller passes the
previously stored values back in. -/
theorem claim_C3_update_full_replace (invoice : InvoiceRow) (db : DB) (r : InvoiceRow)
    (hr : db.invoice? invoice.id = some r) :
    (InvoiceModel.Update invoice db).res = .ok { invoice with updatedAt := db.now } ∧
    ∃ r2, (InvoiceModel.Update invoice db).db.invoice? invoice.id = some r2 ∧
      r2.isActive = invoice.isActive ∧ r2.date = invoice.date ∧ r2.number = invoice.number ∧
      r2.organisationID = invoice.organisationID ∧ r2.bankAccountID = invoice.bankAccountID ∧
      r2.companyID = invoice.companyID ∧ r2.agreementID = invoice.agreementID ∧
      r2.amount = invoice.amount ∧ r2.discount = invoice.discount ∧ r2.vat = invoice.vat ∧
      r2.updatedAt = db.now ∧
      r2.id = r.id ∧ r2.userID = r.userID ∧ r2.uuid = r.uuid ∧
      r2.destroyedAt = r.destroyedAt ∧ r2.createdAt = r.createdAt := by
  have hr2 : db.invoices.find? (fun s => s.id == invoice.id) = some r := hr
  have hmem := List.mem_of_find?_eq_some hr2
  have hpid0 := List.find?_some hr2
  have hpid : (r.id == invoice.id) = true := hpid0
  have hany : db.invoices.any (fun s => s.id == invoice.id) = true :=
    List.any_eq_true.mpr ⟨r, hmem, hpid⟩
  have hstep := invoiceUpdate_step invoice db hany
  constructor
  · rw [hstep]
  · refine ⟨InvoiceModel.applyInvoiceUpdate invoice db.now r, ?_,
      rfl, rfl, rfl, rfl, rfl, rfl, rfl, rfl, rfl, rfl, rfl, rfl, rfl, rfl, rfl, rfl⟩
    rw [hstep]
    unfold DB.invoice?
    rw [find?_map_pres _ _ _ (fun s => headerRewrite_pres_id invoice db.now invoice.id s)]
    rw [hr2]
    have hpideq : r.id = invoice.id := by simpa using hpid
    simp [headerRewrite, hpideq]

/-- C3 witness: the amended update applied to `c3db`. -/
theorem claim_C3_witness :
    c3db.invoice? c3input.id = some c3stored ∧
    (InvoiceModel.Update c3input c3db).res = .ok { c3input with updatedAt := 10 } := by
  refine ⟨by decide, ?_⟩
  have h := (claim_C3_update_full_replace c3input c3db c3stored (by decide)).1
  exact h.trans (by decide)

/-- C4: for organisationID ≥ 1, `GetNumber` answers "1" when the
organisation has no invoice; when one row is strictly the most
recently created among the organisation's rows, it answers the parse
of that row's number plus one (as a decimal string), and errors hard
when that number is not numeric; and the answer depends only on the
organisation's own rows, so other organisations never influence it. -/
theorem claim_C4_next_number (organisationID : Int) (db : DB) (h : 1 ≤ organisationID) :
    (orgRows organisationID db = [] →
      (InvoiceModel.GetNumber organisationID db).res = .ok "1") ∧
    (∀ r n, r ∈ orgRows organisationID db →
      (∀ s ∈ orgRows organisationID db, s ≠ r → s.createdAt < r.createdAt) →
      atoi? r.number = some n →
      (InvoiceModel.GetNumber organisationID db).res = .ok (toString (n + 1))) ∧
    (∀ r, r ∈ orgRows organisationID db →
      (∀ s ∈ orgRows organisationID db, s ≠ r → s.createdAt < r.createdAt) →
      atoi? r.number = none →
      (InvoiceModel.GetNumber organisationID db).res = .error .atoiError) ∧
    (∀ db2, orgRows organisationID db2 = orgRows organisationID db →
      (InvoiceModel.GetNumber organisationID db2).res
        = (InvoiceModel.GetNumber organisationID db).res) := by
  have hlt : ¬ organisationID < 1 := by omega
  refine ⟨?_, ?_, ?_, ?_⟩
  · intro hempty
    unfold InvoiceModel.GetNumber
    rw [if_neg hlt, hempty]
    rfl
  · intro r n hmem hstrict hparse
    unfold InvoiceModel.GetNumber
    rw [if_neg hlt]
    simp only [latestByCreated_of_strict hmem hstrict, hparse]
  · intro r hmem hstrict hparse
    unfold InvoiceModel.GetNumber
    rw [if_neg hlt]
    simp only [latestByCreated_of_strict hmem hstrict, hparse]
  · intro db2 heq
    unfold InvoiceModel.GetNumber
    rw [if_neg hlt, if_neg hlt, heq]
    split
    · rfl
    · split <;> rfl

/-- C4 witness: organisation 1 of `c4db` (latest number "7", while
organisation 2 holds "100") is assigned "8". -/
theorem claim_C4_witness :
    1 ≤ (1:Int) ∧ c4latest ∈ orgRows 1 c4db ∧
    (∀ s ∈ orgRows 1 c4db, s ≠ c4latest → s.createdAt < c4latest.createdAt) ∧
    atoi? c4latest.number = some 7 ∧
    (InvoiceModel.GetNumber 1 c4db).res = .ok "8" := by
  refine ⟨by decide, by decide, by decide, by decide, ?_⟩
  have h := (claim_C4_next_number 1 c4db (by decide)).2.1 c4latest 7
    (by decide) (by decide) (by decide)
  exact h.trans (by decide)

/-- C5: when the caller supplies no number and the Numbering Assigner
succeeds on the invoice's organisation against the pre-insert state,
the inserted row persists exactly the Assigner's result as its
number. -/
theorem claim_C5_insert_uses_assigner (invoice : InvoiceRow) (db : DB) (num : String)
    (hempty : invoice.number = "")
    (hok : (InvoiceModel.GetNumber invoice.organisationID db).res = .ok num) :
    ∃ r, (InvoiceModel.Insert invoice db).res = .ok r ∧ r.number = num ∧
      (InvoiceModel.Insert invoice db).db.invoices = db.invoices ++ [r] := by
  unfold InvoiceModel.Insert
  simp only [hempty, hok, eq_self_iff_true, if_true]
  exact ⟨_, rfl, rfl, rfl⟩

/-- C5 witness: inserting an invoice with empty number for
organisation 1 of `c4db` persists "8". -/
theorem claim_C5_witness :
    c5input.number = "" ∧
    (InvoiceModel.GetNumber c5input.organisationID c4db).res = .ok "8" ∧
    ∃ r, (InvoiceModel.Insert c5input c4db).res = .ok r ∧ r.number = "8" ∧
      (InvoiceModel.Insert c5input c4db).db.invoices = c4db.invoices ++ [r] := by
  refine ⟨by decide, by decide, ?_⟩
  exact claim_C5_insert_uses_assigner c5input c4db "8" (by decide) (by decide)

/-- C6: recompute is idempotent on amount and vat — after a successful
recompute, running it again (at any later clock) succeeds and leaves
the invoice's amount and vat exactly as the first run wrote them. -/
theorem claim_C6_recompute_idempotent (db : DB) (id : Int) (t : Nat)
    (h1 : (InvoiceModel.UpdateTotals id db).res = .ok ()) :
    (InvoiceModel.UpdateTotals id { (InvoiceModel.UpdateTotals id db).db with now := t }).res
        = .ok () ∧
    ((InvoiceModel.UpdateTotals id
          { (InvoiceModel.UpdateTotals id db).db with now := t }).db.invoice? id).map
        (fun r => (r.amount, r.vat))
      = ((InvoiceModel.UpdateTotals id db).db.invoice? id).map (fun r => (r.amount, r.vat)) := by
  by_cases hlt : id < 1
  · rw [updateTotals_guard hlt] at h1
    exact absurd h1 (by simp)
  have hany : db.invoices.any (fun s => s.id == id) = true := by
    by_cases h : db.invoices.any (fun s => s.id == id) = true
    · exact h
    · exfalso
      unfold InvoiceModel.UpdateTotals at h1
      rw [if_neg hlt, if_neg h] at h1
      exact absurd h1 (by simp)
  have hstep1 := updateTotals_step db id hlt hany
  obtain ⟨r0, hr0mem, hr0p⟩ := List.any_eq_true.mp hany
  cases hf : db.invoices.find? (fun s => s.id == id) with
  | none =>
    exact absurd (List.find?_eq_none.mp hf r0 hr0mem) (by simpa using hr0p)
  | some rr =>
    have hrrp0 := List.find?_some hf
    have hrrp : (rr.id == id) = true := hrrp0
    have hrreq : rr.id = id := by simpa using hrrp
    rw [hstep1]
    have hany2 : (({ db with invoices := db.invoices.map (totalsRewrite db id) } :
        DB).invoices.any (fun s => s.id == id)) = true := by
      refine List.any_eq_true.mpr ⟨totalsRewrite db id r0, List.mem_map.mpr ⟨r0, hr0mem, rfl⟩, ?_⟩
      show ((totalsRewrite db id r0).id == id) = true
      rw [totalsRewrite_pres_id]
      exact hr0p
    have hstep2 := updateTotals_step
      { { db with invoices := db.invoices.map (totalsRewrite db id) } with now := t } id hlt hany2
    rw [hstep2]
    constructor
    · rfl
    · unfold DB.invoice?
      rw [find?_map_pres _ _ _
        (fun s => totalsRewrite_pres_id
          { { db with invoices := db.invoices.map (totalsRewrite db id) } with now := t } id s)]
      rw [find?_map_pres _ _ _ (fun s => totalsRewrite_pres_id db id s)]
      rw [hf]
      simp [totalsRewrite, DB.itemsOf, hrreq]

/-- C6 witness: running the recompute twice on invoice 1 of `c1db`. -/
theorem claim_C6_witness :
    (InvoiceModel.UpdateTotals 1 c1db).res = .ok () ∧
    (InvoiceModel.UpdateTotals 1 { (InvoiceModel.UpdateTotals 1 c1db).db with now := 8 }).res
      = .ok () := by
  refine ⟨by decide, ?_⟩
  exact (claim_C6_recompute_idempotent c1db 1 8 (by decide)).1

/-- C7: the double-scoped item fetch answers NotFound when either key
is below 1 and when the item with the requested primary key belongs to
a different invoice; it returns the (projected) item exactly when the
pair matches a stored row. -/
theorem claim_C7_item_get_scoping (db : DB) (invoiceID id : Int)
    (hnd : (db.invoiceItems.map (fun it => it.id)).Nodup) :
    ((invoiceID < 1 ∨ id < 1) →
      (InvoiceItemModel.Get invoiceID id db).res = .error .recordNotFound) ∧
    (∀ it, it ∈ db.invoiceItems → it.id = id → it.invoiceID ≠ invoiceID →
      (InvoiceItemModel.Get invoiceID id db).res = .error .recordNotFound) ∧
    (∀ it, it ∈ db.invoiceItems → it.id = id → it.invoiceID = invoiceID →
      1 ≤ invoiceID → 1 ≤ id →
      (InvoiceItemModel.Get invoiceID id db).res = .ok (InvoiceItemModel.scannedItem it)) := by
  refine ⟨?_, ?_, ?_⟩
  · intro hlt
    unfold InvoiceItemModel.Get
    have hcond : (id < 1 || invoiceID < 1) = true := by
      rcases hlt with h | h <;> simp [h]
    rw [if_pos hcond]
  · intro it hmem hid hneq
    unfold InvoiceItemModel.Get
    by_cases hg : (id < 1 || invoiceID < 1) = true
    · rw [if_pos hg]
    · rw [if_neg hg]
      have hnone :
          db.invoiceItems.find? (fun x => x.invoiceID == invoiceID && x.id == id) = none := by
        refine List.find?_eq_none.mpr ?_
        intro x hx hpx
        simp only [Bool.and_eq_true, beq_iff_eq] at hpx
        have hxit : x = it :=
          List.inj_on_of_nodup_map hnd hx hmem (by show x.id = it.id; rw [hpx.2, hid])
        exact hneq (hxit ▸ hpx.1)
      rw [hnone]
  · intro it hmem hid hinv hge1 hge2
    unfold InvoiceItemModel.Get
    have hg : ¬ ((id < 1 || invoiceID < 1) = true) := by
      simp
      omega
    rw [if_neg hg]
    have hfind :
        db.invoiceItems.find? (fun x => x.invoiceID == invoiceID && x.id == id) = some it := by
      refine find?_eq_of_keyNodup _ (fun x => x.id) _ it hnd hmem ?_ ?_
      · simp [hid, hinv]
      · intro y hpy
        simp only [Bool.and_eq_true, beq_iff_eq] at hpy
        show y.id = it.id
        rw [hpy.2, hid]
    rw [hfind]

/-- C7 witness: item 5 belongs to invoice 2 of `c7db`, so fetching it
through invoice 1 answers NotFound. -/
theorem claim_C7_witness :
    (c7db.invoiceItems.map (fun it => it.id)).Nodup ∧
    ({ someItem with id := 5, invoiceID := 2 } : InvoiceItemRow) ∈ c7db.invoiceItems ∧
    ((2:Int) ≠ 1) ∧
    (InvoiceItemModel.Get 1 5 c7db).res = .error .recordNotFound := by
  refine ⟨by decide, by decide, by decide, ?_⟩
  exact (claim_C7_item_get_scoping c7db 1 5 (by decide)).2.1
    { someItem with id := 5, invoiceID := 2 } (by decide) (by decide) (by decide)

/-- C8 counterexample: `InvoiceItemModel.Insert` given invoice key 0
still sends its INSERT to the store (one round trip) and does not fail
with NotFound. -/
theorem claim_C8_counterexample :
    (InvoiceItemModel.Insert 0 someItem c8db).trips = 1 ∧
    (InvoiceItemModel.Insert 0 someItem c8db).res ≠ .error .recordNotFound := by
  refine ⟨by decide, by decide⟩

/-- C8 (amended): only `InvoiceModel.Get`, `InvoiceModel.Delete`,
`InvoiceModel.GetNumber`, `InvoiceModel.UpdateTotals`,
`InvoiceItemModel.Get` and `InvoiceItemModel.Delete` guard their keys,
answering NotFound with zero round trips on a key ≤ 0;
`InvoiceItemModel.Insert` and `InvoiceItemModel.Update` have no guard
and always execute their statement, failing on a key ≤ 0 with a
foreign-key or raw no-rows error after one round trip. -/
theorem claim_C8_key_guards (db : DB) (id : Int) (hle : id ≤ 0)
    (hinv : ∀ r ∈ db.invoices, 1 ≤ r.id)
    (hitem : ∀ it ∈ db.invoiceItems, 1 ≤ it.id) :
    InvoiceModel.Get id db = ⟨.error .recordNotFound, db, 0⟩ ∧
    InvoiceModel.Delete id db = ⟨.error .recordNotFound, db, 0⟩ ∧
    InvoiceModel.GetNumber id db = ⟨.error .recordNotFound, db, 0⟩ ∧
    InvoiceModel.UpdateTotals id db = ⟨.error .recordNotFound, db, 0⟩ ∧
    (∀ k, InvoiceItemModel.Get id k db = ⟨.error .recordNotFound, db, 0⟩ ∧
          InvoiceItemModel.Get k id db = ⟨.error .recordNotFound, db, 0⟩) ∧
    InvoiceItemModel.Delete id db = ⟨.error .recordNotFound, db, 0⟩ ∧
    (∀ item, (InvoiceItemModel.Insert id item db).res = .error .fkViolation ∧
             (InvoiceItemModel.Insert id item db).trips = 1) ∧
    (∀ item, item.id = id →
      (InvoiceItemModel.Update item db).res = .error .noRows ∧
      (InvoiceItemModel.Update item db).trips = 1) := by
  have hlt : id < 1 := by omega
  refine ⟨?_, ?_, ?_, ?_, ?_, ?_, ?_, ?_⟩
  · unfold InvoiceModel.Get
    rw [if_pos hlt]
  · unfold InvoiceModel.Delete
    rw [if_pos hlt]
  · unfold InvoiceModel.GetNumber
    rw [if_pos hlt]
  · exact updateTotals_guard hlt
  · intro k
    constructor
    · unfold InvoiceItemModel.Get
      have hcond : (k < 1 || id < 1) = true := by simp [hlt]
      rw [if_pos hcond]
    · unfold InvoiceItemModel.Get
      have hcond : (id < 1 || k < 1) = true := by simp [hlt]
      rw [if_pos hcond]
  · unfold InvoiceItemModel.Delete
    rw [if_pos hlt]
  · intro item
    have hno : ¬ (db.invoices.any (fun r => r.id == id) = true) := by
      intro hx
      obtain ⟨r, hr, hp⟩ := List.any_eq_true.mp hx
      have h1 : r.id = id := by simpa using hp
      have h2 := hinv r hr
      omega
    unfold InvoiceItemModel.Insert
    rw [if_neg hno]
    exact ⟨rfl, rfl⟩
  · intro item hid
    have hno : ¬ (db.invoiceItems.any (fun it => it.id == item.id) = true) := by
      intro hx
      obtain ⟨x, hx2, hp⟩ := List.any_eq_true.mp hx
      have h1 : x.id = item.id := by simpa using hp
      have h2 := hitem x hx2
      omega
    unfold InvoiceItemModel.Update
    rw [if_neg hno]
    exact ⟨rfl, rfl⟩

/-- C8 witness: key -3 against the empty store `c8db`. -/
theorem claim_C8_witness :
    ((-3:Int) ≤ 0) ∧ (∀ r ∈ c8db.invoices, 1 ≤ r.id) ∧
    (∀ it ∈ c8db.invoiceItems, 1 ≤ it.id) ∧
    InvoiceModel.Get (-3) c8db = ⟨.error .recordNotFound, c8db, 0⟩ ∧
    (InvoiceItemModel.Insert (-3) someItem c8db).trips = 1 := by
  refine ⟨by decide, by decide, by decide, ?_, ?_⟩
  · exact (claim_C8_key_guards c8db (-3) (by decide) (by decide) (by decide)).1
  · exact ((claim_C8_key_guards c8db (-3) (by decide) (by decide)
      (by decide)).2.2.2.2.2.2.1 someItem).2

/-- C9: deleting item 10 (owned by invoice 2) through the URL of
invoice 1 succeeds with no ownership check, recomputes only invoice 1,
and leaves invoice 2's totals stale: the row still says (5, 1) while
its item set now sums to 0. -/
theorem claim_C9_delete_ignores_scope :
    (deleteInvoiceItemHandler 1 10 c9db).1 = .okMessage "invoice_item successfully deleted" ∧
    (deleteInvoiceItemHandler 1 10 c9db).2.invoiceItems = [] ∧
    ((deleteInvoiceItemHandler 1 10 c9db).2.invoice? 2).map (fun r => (r.amount, r.vat))
        = some (5, 1) ∧
    (((deleteInvoiceItemHandler 1 10 c9db).2.itemsOf 2).map (fun it => it.amount)).sum = 0 ∧
    ((deleteInvoiceItemHandler 1 10 c9db).2.invoice? 1).map (fun r => (r.amount, r.vat))
        = some (0, 0) := by
  refine ⟨by decide, by decide, by decide, by decide, by decide⟩

/-- C10: the single-invoice fetch ignores the soft-delete marker and
returns a destroyed invoice, while the list endpoint's WHERE clause
always carries `destroyed_at IS NULL`, so no successful listing ever
contains that invoice. -/
theorem claim_C10_soft_delete_visibility (db : DB) (r : InvoiceRow)
    (hnd : (db.invoices.map (fun s => s.id)).Nodup)
    (hr : r ∈ db.invoices) (hid : 1 ≤ r.id) (hdel : r.destroyedAt ≠ none) :
    (InvoiceModel.Get r.id db).res = .ok r ∧
    (∀ f p l, InvoiceModel.GetAll f p db = .ok l → r ∉ l) := by
  constructor
  · unfold InvoiceModel.Get
    have hlt : ¬ r.id < 1 := by omega
    rw [if_neg hlt]
    have hfind : db.invoice? r.id = some r := by
      unfold DB.invoice?
      refine find?_eq_of_keyNodup _ (fun s => s.id) _ r hnd hr (by simp) ?_
      intro y hpy
      simpa using hpy
    rw [hfind]
  · intro f p l hl hmem
    unfold InvoiceModel.GetAll at hl
    cases hcol : p.sortColumn? with
    | none =>
      rw [hcol] at hl
      cases hl
    | some col =>
      simp only [hcol] at hl
      by_cases hc : (invoiceSortCols.contains col) = true
      · rw [if_pos hc] at hl
        by_cases hlim : (p.limit < 0 || p.offsetVal < 0) = true
        · rw [if_pos hlim] at hl
          cases hl
        · rw [if_neg hlim] at hl
          simp only [Except.ok.injEq] at hl
          rw [← hl] at hmem
          have h1 : r ∈ sortLE (invoiceOrder col p.sortDirection)
              (db.invoices.filter (invoiceWhere f)) :=
            List.drop_subset _ _ (List.take_subset _ _ hmem)
          have h2 : r ∈ db.invoices.filter (invoiceWhere f) := (mem_sortLE _ _ _).mp h1
          have h3 := (List.mem_filter.mp h2).2
          unfold invoiceWhere at h3
          simp only [Bool.and_eq_true] at h3
          have h4 : r.destroyedAt = none := by simpa using h3.2
          exact hdel h4
      · rw [if_neg hc] at hl
        cases hl

/-- C10 witness: the soft-deleted invoice of `c10db` is returned by
`Get` and absent from every successful listing. -/
theorem claim_C10_witness :
    (c10db.invoices.map (fun s => s.id)).Nodup ∧ c10dead ∈ c10db.invoices ∧
    1 ≤ c10dead.id ∧ c10dead.destroyedAt ≠ none ∧
    (InvoiceModel.Get c10dead.id c10db).res = .ok c10dead ∧
    (∀ l, InvoiceModel.GetAll c10filters c10page c10db = .ok l → c10dead ∉ l) := by
  refine ⟨by decide, by decide, by decide, by decide, ?_, ?_⟩
  · exact (claim_C10_soft_delete_visibility c10db c10dead
      (by decide) (by decide) (by decide) (by decide)).1
  · intro l hl
    exact (claim_C10_soft_delete_visibility c10db c10dead
      (by decide) (by decide) (by decide) (by decide)).2 c10filters c10page l hl

end StockupGo
